import Mathlib

/-!
Shallow embedding of the admission-control layer of the Social Insecurity
web application (social_insecurity/routes.py together with the constants of
social_insecurity/config.py): the POST cooldown gate
(rate_limit_post_requests), the sliding-window upload limiter inside the
stream handler, and the login-attempt tracker inside the index handler.

Timestamps are modelled as integers (the source uses time.time() floats;
all comparisons are order comparisons, so the integer model is faithful).
The three process-global dicts last_post_times, upload_history and
login_attempts are modelled as functions from String to Option values,
with mapInsert as dict assignment.
-/

namespace SocialInsecurity

/-- The configuration constants consumed by the admission-control layer,
mirroring the Config class of social_insecurity/config.py. -/
structure Config where
  COOLDOWN_MS : Int
  UPLOAD_LIMIT : Nat
  UPLOAD_WINDOW : Int
  MAX_LOGIN_ATTEMPTS : Nat
  LOGIN_COOLDOWN : Int
deriving DecidableEq, Repr

/-- The default values from config.py. -/
def defaultConfig : Config :=
  { COOLDOWN_MS := 1000
    UPLOAD_LIMIT := 5
    UPLOAD_WINDOW := 60
    MAX_LOGIN_ATTEMPTS := 5
    LOGIN_COOLDOWN := 3600 }

/-- Python dict assignment d[k] = v on a dict modelled as a lookup function. -/
def mapInsert {α : Type} (m : String → Option α) (k : String) (v : α) :
    String → Option α :=
  fun k₂ => if k₂ = k then some v else m k₂

/-- Dict last_post_times: identity to last admitted POST timestamp (ms). -/
abbrev LastPostTimes := String → Option Int

/-- Dict upload_history: identity to list of recent upload timestamps (s). -/
abbrev UploadHistory := String → Option (List Int)

/-- A per-username record of the login_attempts dict:
attempts count and last_attempt timestamp. -/
structure LoginRecord where
  attempts : Nat
  last_attempt : Int
deriving DecidableEq, Repr

/-- Dict login_attempts: username to its LoginRecord. -/
abbrev LoginAttempts := String → Option LoginRecord

/-- The empty dict, the state at process start for all three maps. -/
def emptyMap {α : Type} : String → Option α := fun _ => none

/-- Outcome of the before-request cooldown gate: either the request passes
through, or it is rejected with HTTP 429 carrying the wait time in ms. -/
inductive CooldownResult where
  | pass : CooldownResult
  | tooMany : Int → CooldownResult
deriving DecidableEq, Repr

/-- The before_request hook rate_limit_post_requests of routes.py
(lines 41-58). Non-POST requests pass untouched. For a POST, the key is
the session user id when logged in, else the remote address; with
last_time the stored timestamp (default 0), the request is rejected with
wait COOLDOWN_MS - (now - last_time) when now - last_time < COOLDOWN_MS,
and otherwise admitted with now stored as the new timestamp. -/
def rate_limit_post_requests (cfg : Config) (m : LastPostTimes)
    (method : String) (logged_in : Bool) (session_user remote_addr : String)
    (now : Int) : CooldownResult × LastPostTimes :=
  if method ≠ "POST" then
    (CooldownResult.pass, m)
  else
    let user_id := if logged_in then session_user else remote_addr
    let last_time := (m user_id).getD 0
    if now - last_time < cfg.COOLDOWN_MS then
      (CooldownResult.tooMany (cfg.COOLDOWN_MS - (now - last_time)), m)
    else
      (CooldownResult.pass, mapInsert m user_id now)

/-- Outcome of the sliding-window upload check in the stream handler. -/
inductive UploadResult where
  | allowed : UploadResult
  | tooManyUploads : UploadResult
deriving DecidableEq, Repr

/-- The sliding-window body of the stream handler (routes.py lines 160-169)
for a single identity: prune the stored timestamps to those with
now - t < UPLOAD_WINDOW, deny when the pruned length has reached
UPLOAD_LIMIT (leaving the stored list as it was, since the dict is only
assigned on the admit path), else append now and store. -/
def uploadCheck (cfg : Config) (ts : List Int) (now : Int) :
    UploadResult × List Int :=
  let timestamps := ts.filter (fun t => now - t < cfg.UPLOAD_WINDOW)
  if cfg.UPLOAD_LIMIT ≤ timestamps.length then
    (UploadResult.tooManyUploads, ts)
  else
    (UploadResult.allowed, timestamps ++ [now])

/-- The same check at the level of the upload_history dict: on denial the
dict is untouched (the handler returns 429 before the assignment on line
169); on admission the pruned-plus-now list is stored for the identity. -/
def streamUpload (cfg : Config) (hist : UploadHistory) (user_id : String)
    (now : Int) : UploadResult × UploadHistory :=
  let ts := (hist user_id).getD []
  match uploadCheck cfg ts now with
  | (UploadResult.tooManyUploads, _) => (UploadResult.tooManyUploads, hist)
  | (UploadResult.allowed, ts₂) =>
      (UploadResult.allowed, mapInsert hist user_id ts₂)

/-- Pruning as the spec describes it in words: discard exactly the entries
older than now - window_seconds (so an entry exactly window_seconds old is
kept). The source instead keeps t with now - t < window, discarding the
boundary entry; the two are compared in the refinement theorem below. -/
def pruneOlderThanSpec (ts : List Int) (now window : Int) : List Int :=
  ts.filter (fun t => ¬ t < now - window)

/-- Outcome of the login branch of the index handler. wrongCreds covers
both the unknown-username and the failed-password flash; tooManyAttempts
is the lockout flash; lockoutReset is the branch that stores a fresh
record with attempts 0; success stores the session user id. -/
inductive LoginOutcome where
  | wrongCreds : LoginOutcome
  | tooManyAttempts : LoginOutcome
  | lockoutReset : LoginOutcome
  | success : LoginOutcome
deriving DecidableEq, Repr

/-- Python login_attempts.get(u, \x7b\x7d).get("attempts", 0). -/
def getAttempts (m : LoginAttempts) (u : String) : Nat :=
  ((m u).map LoginRecord.attempts).getD 0

/-- The login submission branch of the index handler (routes.py lines
82-104), with the database and password-hash collaborators abstracted:
userExists stands for get_user_password returning a row, passwordOk for
check_password_hash. The lockout branch indexes login_attempts[u]
directly (line 93), which raises KeyError when no record exists; that
fallible access is the none result. The only write to login_attempts in
the whole source is the attempts-0 record of lines 96-99. -/
def loginSubmit (cfg : Config) (m : LoginAttempts) (u : String)
    (userExists passwordOk : Bool) (now : Int) :
    Option (LoginOutcome × LoginAttempts) :=
  if ¬ userExists then
    some (LoginOutcome.wrongCreds, m)
  else if cfg.MAX_LOGIN_ATTEMPTS ≤ getAttempts m u then
    match m u with
    | none => none
    | some rec =>
        if rec.last_attempt < now + cfg.LOGIN_COOLDOWN then
          some (LoginOutcome.tooManyAttempts, m)
        else
          some (LoginOutcome.lockoutReset,
            mapInsert m u { attempts := 0, last_attempt := 0 })
  else if ¬ passwordOk then
    some (LoginOutcome.wrongCreds, m)
  else
    some (LoginOutcome.success, m)

/-- The response returned by the POST branch of the stream handler. -/
inductive StreamResponse where
  | illegalExtension : StreamResponse
  | tooManyUploads429 : StreamResponse
  | postFailed : StreamResponse
  | redirectStream : StreamResponse
deriving DecidableEq, Repr

/-- What the POST branch of the stream handler did: its response, the
upload_history dict afterwards, the file saved to the uploads folder (if
any), and whether create_post was invoked. -/
structure StreamResult where
  response : StreamResponse
  upload_history : UploadHistory
  savedFile : Option String
  createPostCalled : Bool

/-- The form-submitted branch of the stream handler (routes.py lines
147-179), with the web-layer collaborators abstracted: filename is the
secure_filename of the attached file (empty string when falsy),
extensionAllowed stands for membership in ALLOWED_EXTENSIONS, hasImage
for post_form.image.data being truthy, and createOk for
sqlite.create_post succeeding. On an upload denial the handler returns
HTTP 429 before the file save and before create_post. -/
def stream_post (cfg : Config) (hist : UploadHistory) (user_id : String)
    (now : Int) (filename : String) (extensionAllowed hasImage createOk : Bool) :
    StreamResult :=
  if filename ≠ "" ∧ ¬ extensionAllowed then
    { response := StreamResponse.illegalExtension, upload_history := hist
      savedFile := none, createPostCalled := false }
  else if hasImage then
    match streamUpload cfg hist user_id now with
    | (UploadResult.tooManyUploads, _) =>
        { response := StreamResponse.tooManyUploads429, upload_history := hist
          savedFile := none, createPostCalled := false }
    | (UploadResult.allowed, hist₂) =>
        { response := if createOk then StreamResponse.redirectStream
            else StreamResponse.postFailed
          upload_history := hist₂
          savedFile := some filename, createPostCalled := true }
  else
    { response := if createOk then StreamResponse.redirectStream
        else StreamResponse.postFailed
      upload_history := hist
      savedFile := none, createPostCalled := true }

/-- A request as it affects the login_attempts dict: either a login
submission handled by the login branch of index, or any other request
(no other handler in routes.py ever touches login_attempts). -/
inductive Request where
  | login : String → Bool → Bool → Int → Request
  | other : Request

/-- The effect of one request on the login_attempts dict. A KeyError in
the lockout branch aborts the request with the dict unchanged (no write
precedes the faulting read). -/
def loginStep (cfg : Config) (m : LoginAttempts) : Request → LoginAttempts
  | Request.login u e p now =>
      match loginSubmit cfg m u e p now with
      | some r => r.2
      | none => m
  | Request.other => m

/-- The login_attempts dict after a sequence of requests starting from
the empty dict of process start (routes.py line 23). -/
def runRequests (cfg : Config) (reqs : List Request) : LoginAttempts :=
  reqs.foldl (loginStep cfg) emptyMap

/-- Invariant: every record in the login_attempts dict has attempts 0
(absent records count as 0, matching the source's .get default). -/
def AllClear (m : LoginAttempts) : Prop :=
  ∀ u : String, getAttempts m u = 0

/-- Five consecutive failed login submissions for bob, credentials present
and wrong each time. -/
def fiveFailures : List Request :=
  [Request.login ("bob") true false 100, Request.login ("bob") true false 101,
   Request.login ("bob") true false 102, Request.login ("bob") true false 103,
   Request.login ("bob") true false 104]

/-- A login_attempts dict holding a locked record for bob: 5 attempts,
last_attempt 0. -/
def lockedBob : LoginAttempts :=
  mapInsert emptyMap ("bob") { attempts := 5, last_attempt := 0 }

/-- A login_attempts dict holding an accumulating record for bob:
1 attempt, last_attempt 10. -/
def accBob : LoginAttempts :=
  mapInsert emptyMap ("bob") { attempts := 1, last_attempt := 10 }

/-- Claim C1: the claim states that each failed password check increments
the username's attempts and that after MAX_LOGIN_ATTEMPTS consecutive
failures the state is LOCKED. The code never increments: after five
consecutive failed password checks for bob (MAX_LOGIN_ATTEMPTS = 5),
bob's attempts count is still 0 and a sixth submission is answered with
the wrong-credentials flash, not the lockout flash. -/
theorem failed_logins_keep_attempts_zero :
    getAttempts (runRequests defaultConfig fiveFailures) ("bob") = 0
    ∧ (loginSubmit defaultConfig (runRequests defaultConfig fiveFailures)
        ("bob") true false 105).map Prod.fst = some LoginOutcome.wrongCreds := by
  decide

/-- Claim C2: the claim states that a LOCKED username with
now - last_attempt ≥ LOGIN_COOLDOWN is reset to attempts 0 and evaluated
normally. At attempts = 5, last_attempt = 0, now = 4000 and
LOGIN_COOLDOWN = 3600 (so now - last_attempt = 4000 ≥ 3600, and the
password is correct) the code still takes the too-many-attempts branch,
because it compares last_attempt < now + LOGIN_COOLDOWN, and the
attempts count stays 5. -/
theorem lockout_denied_after_cooldown_elapsed :
    (loginSubmit defaultConfig lockedBob ("bob") true true 4000).map Prod.fst
      = some LoginOutcome.tooManyAttempts
    ∧ (loginSubmit defaultConfig lockedBob ("bob") true true 4000).map
        (fun r => getAttempts r.2 ("bob")) = some 5 := by
  decide

/-- A configuration with upload limit 1 and window 60, for exercising the
pruning boundary. -/
def limitOneConfig : Config :=
  { COOLDOWN_MS := 1000
    UPLOAD_LIMIT := 1
    UPLOAD_WINDOW := 60
    MAX_LOGIN_ATTEMPTS := 5
    LOGIN_COOLDOWN := 3600 }

/-- Claim C5 counterexample: the claim says the check discards exactly the
timestamps older than now - UPLOAD_WINDOW and admits iff the pruned
sequence is shorter than UPLOAD_LIMIT. With window 60, limit 1, a stored
timestamp 0 and a check at now = 60, the timestamp is exactly
now - window, so the claim's pruning keeps it and would deny; the code,
which keeps only now - t < window, discards it and admits. -/
theorem prune_boundary_cx :
    (streamUpload limitOneConfig
      (mapInsert emptyMap ("u2") [0]) ("u2") 60).1 = UploadResult.allowed
    ∧ ¬ (pruneOlderThanSpec [0] 60 60).length < 1 := by
  decide

/-- Claim C8 counterexample: the claim says a successful credential check
in ACCUMULATING state (here attempts = 1 < MAX_LOGIN_ATTEMPTS = 5)
resets the attempts count to 0. The code's success branch only stores
the session id and never touches login_attempts: after the successful
login bob's attempts count is still 1, not 0. -/
theorem success_does_not_reset_cx :
    (loginSubmit defaultConfig accBob ("bob") true true 50).map Prod.fst
      = some LoginOutcome.success
    ∧ (loginSubmit defaultConfig accBob ("bob") true true 50).map
        (fun r => getAttempts r.2 ("bob")) = some 1
    ∧ ¬ (loginSubmit defaultConfig accBob ("bob") true true 50).map
        (fun r => getAttempts r.2 ("bob")) = some 0 := by
  decide

/-- Claim C3: for a username whose record has attempts at least
MAX_LOGIN_ATTEMPTS and last_attempt at most now, with positive
LOGIN_COOLDOWN, the comparison last_attempt < now + LOGIN_COOLDOWN is
true, so the submission is answered with the too-many-attempts flash,
the reset branch is not taken and the dict is unchanged: a lockout never
expires by elapsed time alone. -/
theorem lockout_reset_unreachable (cfg : Config) (m : LoginAttempts)
    (u : String) (p : Bool) (now : Int) (r : LoginRecord)
    (hrec : m u = some r) (hA : cfg.MAX_LOGIN_ATTEMPTS ≤ r.attempts)
    (hla : r.last_attempt ≤ now) (hc : 0 < cfg.LOGIN_COOLDOWN) :
    r.last_attempt < now + cfg.LOGIN_COOLDOWN
    ∧ loginSubmit cfg m u true p now = some (LoginOutcome.tooManyAttempts, m) := by
  have hlt : r.last_attempt < now + cfg.LOGIN_COOLDOWN := by omega
  have hg : getAttempts m u = r.attempts := by
    unfold getAttempts
    rw [hrec]
    rfl
  refine ⟨hlt, ?_⟩
  unfold loginSubmit
  rw [hg, if_neg (by simp), if_pos hA, hrec]
  simp [hlt]

/-- Witness for claim C3: the locked record for bob (attempts 5,
last_attempt 0) at now = 4000 with the default configuration. -/
theorem lockout_reset_unreachable_witness :
    (0 : Int) < defaultConfig.LOGIN_COOLDOWN
    ∧ loginSubmit defaultConfig lockedBob ("bob") true true 4000
        = some (LoginOutcome.tooManyAttempts, lockedBob) :=
  ⟨by decide,
   (lockout_reset_unreachable defaultConfig lockedBob ("bob") true 4000
      { attempts := 5, last_attempt := 0 }
      (by decide) (by decide) (by decide) (by decide)).2⟩

/-- A last_post_times dict holding an admitted POST at time 0 for u1. -/
def u1Posted : LastPostTimes := mapInsert emptyMap ("u1") 0

/-- Claim C4: for a POST request at time t2, with key the session user id
when logged in and the remote address otherwise, and t1 the stored
last-admitted timestamp for that key (default 0): when t2 - t1 is below
COOLDOWN_MS the request is rejected with wait COOLDOWN_MS - (t2 - t1),
which is positive, and the dict is unchanged; otherwise the request
passes and t2 is stored for the key. -/
theorem cooldown_gate_correct (cfg : Config) (m : LastPostTimes)
    (lg : Bool) (su ra : String) (t₂ : Int) :
    (t₂ - (m (if lg then su else ra)).getD 0 < cfg.COOLDOWN_MS →
      rate_limit_post_requests cfg m ("POST") lg su ra t₂
        = (CooldownResult.tooMany
            (cfg.COOLDOWN_MS - (t₂ - (m (if lg then su else ra)).getD 0)), m)
      ∧ 0 < cfg.COOLDOWN_MS - (t₂ - (m (if lg then su else ra)).getD 0))
    ∧ (cfg.COOLDOWN_MS ≤ t₂ - (m (if lg then su else ra)).getD 0 →
      rate_limit_post_requests cfg m ("POST") lg su ra t₂
        = (CooldownResult.pass, mapInsert m (if lg then su else ra) t₂)) := by
  constructor
  · intro h
    unfold rate_limit_post_requests
    rw [if_neg (by simp)]
    refine ⟨by rw [if_pos h], by omega⟩
  · intro h
    unfold rate_limit_post_requests
    rw [if_neg (by simp), if_neg (not_lt.mpr h)]

/-- Witness for claim C4, the spec's own scenario: with cooldown 1000 ms
and an admitted POST for u1 at time 0, a POST at t = 500 is rejected
with wait 500 and the dict unchanged, and a POST at t = 1000 passes and
stores 1000. -/
theorem cooldown_gate_correct_witness :
    rate_limit_post_requests defaultConfig u1Posted ("POST") false ("") ("u1") 500
      = (CooldownResult.tooMany 500, u1Posted)
    ∧ rate_limit_post_requests defaultConfig u1Posted ("POST") false ("") ("u1") 1000
      = (CooldownResult.pass, mapInsert u1Posted ("u1") 1000) :=
  ⟨((cooldown_gate_correct defaultConfig u1Posted false ("") ("u1") 500).1
      (by decide)).1,
   (cooldown_gate_correct defaultConfig u1Posted false ("") ("u1") 1000).2
      (by decide)⟩

/-- Claim C5 (amended): the check discards the stored timestamps that are
at least UPLOAD_WINDOW old (now - t < UPLOAD_WINDOW is kept), admits
exactly when the pruned sequence is shorter than UPLOAD_LIMIT, appending
now and persisting on admission and leaving the dict untouched on
denial; and a timestamp older than now - UPLOAD_WINDOW never survives
pruning, so it is never counted toward the limit. -/
theorem sliding_window_correct (cfg : Config) (hist : UploadHistory)
    (u : String) (now : Int) :
    ((((hist u).getD []).filter (fun t => now - t < cfg.UPLOAD_WINDOW)).length
        < cfg.UPLOAD_LIMIT →
      streamUpload cfg hist u now
        = (UploadResult.allowed,
           mapInsert hist u
             ((((hist u).getD []).filter (fun t => now - t < cfg.UPLOAD_WINDOW))
               ++ [now])))
    ∧ (cfg.UPLOAD_LIMIT
        ≤ (((hist u).getD []).filter (fun t => now - t < cfg.UPLOAD_WINDOW)).length →
      streamUpload cfg hist u now = (UploadResult.tooManyUploads, hist))
    ∧ (∀ t : Int, t < now - cfg.UPLOAD_WINDOW →
      t ∉ ((hist u).getD []).filter (fun t => now - t < cfg.UPLOAD_WINDOW)) := by
  refine ⟨?_, ?_, ?_⟩
  · intro h
    simp only [streamUpload, uploadCheck]
    rw [if_neg (not_le.mpr h)]
  · intro h
    simp only [streamUpload, uploadCheck]
    rw [if_pos h]
  · intro t ht hmem
    rw [List.mem_filter] at hmem
    have h₂ : now - t < cfg.UPLOAD_WINDOW := by
      simpa using hmem.2
    omega

/-- An upload history for u2 with five admitted uploads in the window. -/
def fullU2 : UploadHistory := mapInsert emptyMap ("u2") [1, 2, 3, 4, 5]

/-- Witness for claim C5: with the default configuration (limit 5, window
60) a first upload at time 0 is admitted and stored, and an upload at
time 6 on top of five in-window timestamps is denied with the dict
untouched. -/
theorem sliding_window_correct_witness :
    streamUpload defaultConfig emptyMap ("u2") 0
      = (UploadResult.allowed, mapInsert emptyMap ("u2") [0])
    ∧ streamUpload defaultConfig fullU2 ("u2") 6
      = (UploadResult.tooManyUploads, fullU2) :=
  ⟨(sliding_window_correct defaultConfig emptyMap ("u2") 0).1 (by decide),
   (sliding_window_correct defaultConfig fullU2 ("u2") 6).2.1 (by decide)⟩

/-- Claim C6: a rejected cooldown check returns the last_post_times dict
unchanged, and a rejected sliding-window check returns the
upload_history dict unchanged; only admitted checks write. -/
theorem deny_leaves_state (cfg : Config) (m : LastPostTimes) (method : String)
    (lg : Bool) (su ra : String) (t₂ : Int) (hist : UploadHistory)
    (u : String) (now : Int) :
    (∀ (w : Int) (m₂ : LastPostTimes),
      rate_limit_post_requests cfg m method lg su ra t₂
        = (CooldownResult.tooMany w, m₂) → m₂ = m)
    ∧ (∀ h₂ : UploadHistory,
      streamUpload cfg hist u now = (UploadResult.tooManyUploads, h₂) →
        h₂ = hist) := by
  constructor
  · intro w m₂ h
    simp only [rate_limit_post_requests] at h
    split at h
    · exact absurd (congrArg Prod.fst h) (by simp)
    · split at h <;> split at h
      all_goals
        first
          | exact (congrArg Prod.snd h).symm
          | exact absurd (congrArg Prod.fst h) (by simp)
  · intro h₂ h
    simp only [streamUpload, uploadCheck] at h
    split at h
    · exact (congrArg Prod.snd h).symm
    · exact absurd (congrArg Prod.fst h) (by simp)

/-- A configuration whose upload limit is 0, so every upload is denied. -/
def limitZeroConfig : Config :=
  { COOLDOWN_MS := 1000
    UPLOAD_LIMIT := 0
    UPLOAD_WINDOW := 60
    MAX_LOGIN_ATTEMPTS := 5
    LOGIN_COOLDOWN := 3600 }

/-- Witness for claim C6: a denied POST at t = 500 after an admitted POST
at time 0 leaves u1's record unchanged, and a denied upload under limit
0 leaves the upload history unchanged. -/
theorem deny_leaves_state_witness :
    (rate_limit_post_requests defaultConfig u1Posted ("POST") false ("") ("u1")
        500).2 = u1Posted
    ∧ (streamUpload limitZeroConfig emptyMap ("u2") 5).2 = emptyMap := by
  have H := deny_leaves_state defaultConfig u1Posted ("POST") false ("") ("u1")
    500 emptyMap ("u2") 5
  have H₂ := deny_leaves_state limitZeroConfig u1Posted ("POST") false ("") ("u1")
    500 emptyMap ("u2") 5
  exact ⟨H.1 500 u1Posted rfl, H₂.2 emptyMap rfl⟩

/-- One upload check keeps the stored sequence within the limit. -/
theorem uploadCheck_length_le (cfg : Config) (ts : List Int) (now : Int)
    (h : ts.length ≤ cfg.UPLOAD_LIMIT) :
    ((uploadCheck cfg ts now).2).length ≤ cfg.UPLOAD_LIMIT := by
  simp only [uploadCheck]
  split
  · exact h
  · next hc =>
      rw [List.length_append]
      have := List.length_filter_le (fun t => decide (now - t < cfg.UPLOAD_WINDOW)) ts
      simp only [List.length_cons, List.length_nil]
      omega

/-- Any sequence of upload checks keeps the stored sequence within the
limit. -/
theorem foldl_uploadCheck_length (cfg : Config) (checks : List Int)
    (ts : List Int) (h : ts.length ≤ cfg.UPLOAD_LIMIT) :
    (checks.foldl (fun a t => (uploadCheck cfg a t).2) ts).length
      ≤ cfg.UPLOAD_LIMIT := by
  induction checks generalizing ts with
  | nil => simpa using h
  | cons c cs ih => exact ih _ (uploadCheck_length_le cfg ts c h)

/-- Claim C7: starting from an empty history, after any sequence of upload
checks the stored sequence holds at most UPLOAD_LIMIT timestamps, so the
number of retained timestamps inside any trailing window (b - W, b], and
the length right after any pruning, are both at most UPLOAD_LIMIT. -/
theorem sliding_window_bounded (cfg : Config) (checks : List Int)
    (b now : Int) :
    (checks.foldl (fun a t => (uploadCheck cfg a t).2) []).length
      ≤ cfg.UPLOAD_LIMIT
    ∧ (checks.foldl (fun a t => (uploadCheck cfg a t).2) []).countP
        (fun t => b - cfg.UPLOAD_WINDOW < t ∧ t ≤ b) ≤ cfg.UPLOAD_LIMIT
    ∧ ((checks.foldl (fun a t => (uploadCheck cfg a t).2) []).filter
        (fun t => now - t < cfg.UPLOAD_WINDOW)).length ≤ cfg.UPLOAD_LIMIT := by
  have hlen := foldl_uploadCheck_length cfg checks [] (by simp)
  exact ⟨hlen, le_trans (List.countP_le_length _) hlen,
    le_trans (List.length_filter_le _ _) hlen⟩

/-- Claim C8 (amended): a successful credential check while the username
is below the lockout threshold stores the session id and leaves the
login_attempts dict exactly as it was; the attempts count is therefore 0
afterwards only when it already was (as in the CLEAR state), and is
never explicitly reset. -/
theorem success_leaves_record (cfg : Config) (m : LoginAttempts) (u : String)
    (now : Int) (h : getAttempts m u < cfg.MAX_LOGIN_ATTEMPTS) :
    loginSubmit cfg m u true true now = some (LoginOutcome.success, m) := by
  unfold loginSubmit
  rw [if_neg (by simp), if_neg (not_le.mpr h), if_neg (by simp)]

/-- Witness for claim C8: a successful login for alice with no prior
record (CLEAR state) leaves the empty dict unchanged. -/
theorem success_leaves_record_witness :
    loginSubmit defaultConfig emptyMap ("alice") true true 7
      = some (LoginOutcome.success, emptyMap) :=
  success_leaves_record defaultConfig emptyMap ("alice") 7 (by decide)

/-- getAttempts after a dict write: the written record's count for the
written key, the old count elsewhere. -/
theorem getAttempts_mapInsert (m : LoginAttempts) (u k : String)
    (v : LoginRecord) :
    getAttempts (mapInsert m k v) u
      = if u = k then v.attempts else getAttempts m u := by
  unfold getAttempts mapInsert
  by_cases h : u = k <;> simp [h]

/-- Every value the login branch can store in login_attempts has attempts
0, so the all-records-clear invariant survives one login submission. -/
theorem loginSubmit_allClear (cfg : Config) (m : LoginAttempts) (u : String)
    (e p : Bool) (now : Int) (h : AllClear m) :
    ∀ (o : LoginOutcome) (m₂ : LoginAttempts),
      loginSubmit cfg m u e p now = some (o, m₂) → AllClear m₂ := by
  intro o m₂ hs
  unfold loginSubmit at hs
  split at hs
  · simp only [Option.some.injEq, Prod.mk.injEq] at hs
    exact hs.2 ▸ h
  · split at hs
    · split at hs
      · exact absurd hs (by simp)
      · split at hs
        · simp only [Option.some.injEq, Prod.mk.injEq] at hs
          exact hs.2 ▸ h
        · simp only [Option.some.injEq, Prod.mk.injEq] at hs
          intro u₂
          rw [← hs.2, getAttempts_mapInsert]
          split
          · rfl
          · exact h u₂
    · split at hs
      · simp only [Option.some.injEq, Prod.mk.injEq] at hs
        exact hs.2 ▸ h
      · simp only [Option.some.injEq, Prod.mk.injEq] at hs
        exact hs.2 ▸ h

/-- The all-records-clear invariant survives any request. -/
theorem loginStep_allClear (cfg : Config) (m : LoginAttempts) (req : Request)
    (h : AllClear m) : AllClear (loginStep cfg m req) := by
  cases req with
  | other => exact h
  | login u e p now =>
      simp only [loginStep]
      cases hs : loginSubmit cfg m u e p now with
      | none => exact h
      | some r => exact loginSubmit_allClear cfg m u e p now h r.1 r.2 hs

/-- From the empty dict of process start, the all-records-clear invariant
holds after any sequence of requests. -/
theorem runRequests_allClear (cfg : Config) (reqs : List Request) :
    AllClear (runRequests cfg reqs) := by
  suffices H : ∀ m : LoginAttempts, AllClear m →
      AllClear (reqs.foldl (loginStep cfg) m) from
    H emptyMap (fun _ => rfl)
  induction reqs with
  | nil => exact fun m hm => hm
  | cons r rs ih => exact fun m hm => ih _ (loginStep_allClear cfg m r hm)

/-- Claim C9: starting from the initial empty login_attempts dict, every
reachable state has attempts 0 for every username (the only write the
source performs stores attempts 0), so with MAX_LOGIN_ATTEMPTS at least
1 a login submission in a reachable state never takes the lockout
branch: its outcome is neither the too-many-attempts flash nor the
lockout reset. -/
theorem login_attempts_always_zero (cfg : Config) (reqs : List Request)
    (u : String) (e p : Bool) (now : Int) :
    getAttempts (runRequests cfg reqs) u = 0
    ∧ (1 ≤ cfg.MAX_LOGIN_ATTEMPTS →
      ∀ (o : LoginOutcome) (m₂ : LoginAttempts),
        loginSubmit cfg (runRequests cfg reqs) u e p now = some (o, m₂) →
          o ≠ LoginOutcome.tooManyAttempts ∧ o ≠ LoginOutcome.lockoutReset) := by
  have hz : getAttempts (runRequests cfg reqs) u = 0 :=
    runRequests_allClear cfg reqs u
  refine ⟨hz, fun hmax o m₂ hs => ?_⟩
  have hn : ¬ cfg.MAX_LOGIN_ATTEMPTS ≤ getAttempts (runRequests cfg reqs) u := by
    rw [hz]
    omega
  unfold loginSubmit at hs
  rw [if_neg hn] at hs
  split at hs
  · simp only [Option.some.injEq, Prod.mk.injEq] at hs
    obtain ⟨rfl, rfl⟩ := hs
    exact ⟨by decide, by decide⟩
  · split at hs <;>
      · simp only [Option.some.injEq, Prod.mk.injEq] at hs
        obtain ⟨rfl, rfl⟩ := hs
        exact ⟨by decide, by decide⟩

/-- Witness for claim C9: after one failed login for bob the dict still
reports 0 attempts for bob, and a further submission for bob is not
answered with the lockout flash. -/
theorem login_attempts_always_zero_witness :
    getAttempts (runRequests defaultConfig [Request.login ("bob") true false 10])
      ("bob") = 0
    ∧ LoginOutcome.wrongCreds ≠ LoginOutcome.tooManyAttempts := by
  have H := login_attempts_always_zero defaultConfig
    [Request.login ("bob") true false 10] ("bob") true false 20
  exact ⟨H.1,
    (H.2 (by decide) LoginOutcome.wrongCreds
      (runRequests defaultConfig [Request.login ("bob") true false 10]) rfl).1⟩

/-- Claim C10: when the sliding-window check rejects an upload (and the
extension guard did not already redirect), the stream handler answers
HTTP 429 with no file saved, create_post not invoked, and the
upload_history dict untouched: the denial leaves the domain state
alone. -/
theorem upload_denied_atomic (cfg : Config) (hist : UploadHistory)
    (u : String) (now : Int) (fn : String) (extA createOk : Bool)
    (hfn : fn = "" ∨ extA = true)
    (hdeny : (streamUpload cfg hist u now).1 = UploadResult.tooManyUploads) :
    stream_post cfg hist u now fn extA true createOk
      = { response := StreamResponse.tooManyUploads429, upload_history := hist
          savedFile := none, createPostCalled := false } := by
  have h₁ : ¬ (fn ≠ "" ∧ ¬ extA) := by
    rcases hfn with h | h
    · simp [h]
    · simp [h]
  unfold stream_post
  rw [if_neg h₁, if_pos rfl]
  rcases hres : streamUpload cfg hist u now with ⟨r, h₂⟩
  rw [hres] at hdeny
  simp only at hdeny
  subst hdeny
  rfl

/-- Witness for claim C10: with upload limit 0 every upload is denied;
the POST with an attached pic.png gets the 429 result with nothing
saved, no post created and the history unchanged. -/
theorem upload_denied_atomic_witness :
    stream_post limitZeroConfig emptyMap ("u3") 5 ("pic.png") true true true
      = { response := StreamResponse.tooManyUploads429, upload_history := emptyMap
          savedFile := none, createPostCalled := false } :=
  upload_denied_atomic limitZeroConfig emptyMap ("u3") 5 ("pic.png") true true
    (Or.inr rfl) rfl

end SocialInsecurity
